import Mathlib

/-!
Verification of the job-orchestration and streaming pipeline of the
rebibemecode repository.  The Python sources are shallowly embedded:

* `deltaStep`, `Revive.processLine`, `Revive.run_prompt` embed
  `ReviveAgent.run_prompt` (src/classes/revive_agent.py);
* `CleanLog.processLine` embeds `stream_json_output`
  (src/classes/clean_logger.py);
* `CursorCLI.processLine` embeds `CursorCLIAgent.run_prompt`
  (src/classes/cursor_cli_agent.py);
* `detect_errors` and `fix_errors` embed `IterativeLoop`
  (src/classes/iterative_loop.py);
* `revive_code_task` and `consume` embed the orchestrator worker and the
  SSE stream generator (src/app.py).

Python strings are modelled as `List Char` (`Str`), so that
`startswith` is `List.isPrefixOf`, `s[n:]` is `List.drop` and `len` is
`List.length`.  A raw input line is a `String` together with the result
of `json.loads` on it, abstracted as `Option Event`; the `Event`
structure records exactly the JSON fields the Python code reads.
-/

namespace Rebibe

/-- Python strings, modelled as lists of code points. -/
abbrev Str := List Char

/-- Python `str.strip()`: whitespace removed from both ends, as a
character list. -/
def pyStrip (s : String) : Str :=
  ((s.toList.dropWhile Char.isWhitespace).reverse.dropWhile Char.isWhitespace).reverse

/-- The test `l1.isPrefixOf l2` is the boolean `startswith` test of the source;
it holds exactly when `l2 = l1 ++ t` for some tail `t`. -/
theorem prefixOf_iff (l1 l2 : Str) : l1.isPrefixOf l2 = true ↔ ∃ t, l2 = l1 ++ t := by
  induction l1 generalizing l2 with
  | nil => simp [List.isPrefixOf]
  | cons a as ih =>
    cases l2 with
    | nil => simp [List.isPrefixOf]
    | cons b bs =>
      simp only [List.isPrefixOf, Bool.and_eq_true, beq_iff_eq, ih, List.cons_append,
        List.cons.injEq]
      constructor
      · rintro ⟨rfl, t, rfl⟩; exact ⟨t, rfl, rfl⟩
      · rintro ⟨t, rfl, rfl⟩; exact ⟨rfl, t, rfl⟩

/-- The tool-call payload of a `tool_call` event: which of the fixed set
of keys (`readToolCall`, `editToolCall`, ...) is present, together with
the designated argument field the formatter reads. -/
inductive ToolCall where
  | read (path : String)
  | edit (path : String)
  | write (path : String)
  | shell (command : String)
  | ls (path : String)
  | grep (pattern : String)
  | codebaseSearch (query : String)
  | other
deriving DecidableEq, Repr

/-- One parsed JSON line of the agent event stream, recording exactly the
fields the decoders read: `type`, `message.content` (the `text` of each
content item), `subtype`, `tool_call`, `message` (as read by the
clean-logger fallback branch) and the two `usage` fields. -/
structure Event where
  type : String := ""
  content : List Str := []
  subtype : String := ""
  toolCall : ToolCall := ToolCall.other
  message : String := ""
  usageTotal : Option Nat := none
  usageCompletion : Option Nat := none
deriving DecidableEq, Repr

/-- One raw line of process output together with the result of
`json.loads` on it (`none` when the line is not valid JSON). -/
structure LineInput where
  raw : String
  parsed : Option Event
deriving DecidableEq, Repr

/-- Embeds `ReviveAgent._format_tool_call` and
`CursorCLIAgent._format_tool_call`:
fixed one-line templates, truncating shell commands over 80 characters
and codebase-search queries over 60. -/
def format_tool_call : ToolCall → Option String
  | ToolCall.read path => some ("Reading file: " ++ path)
  | ToolCall.edit path => some ("Editing file: " ++ path)
  | ToolCall.write path => some ("Writing file: " ++ path)
  | ToolCall.shell cmd =>
      some ("Running command: " ++ (if cmd.length > 80 then cmd.take 77 ++ "..." else cmd))
  | ToolCall.ls path => some ("Listing directory: " ++ path)
  | ToolCall.grep pat => some ("Searching for: " ++ pat)
  | ToolCall.codebaseSearch q =>
      some ("Searching codebase: " ++ (if q.length > 60 then q.take 57 ++ "..." else q))
  | ToolCall.other => none

/-- Embeds `clean_logger.format_tool_call`: same templates but with no
truncation of shell commands or queries. -/
def format_tool_call_cl : ToolCall → Option String
  | ToolCall.read path => some ("Reading file: " ++ path)
  | ToolCall.edit path => some ("Editing file: " ++ path)
  | ToolCall.write path => some ("Writing file: " ++ path)
  | ToolCall.shell cmd => some ("Running command: " ++ cmd)
  | ToolCall.ls path => some ("Listing directory: " ++ path)
  | ToolCall.grep pat => some ("Searching for: " ++ pat)
  | ToolCall.codebaseSearch q => some ("Searching codebase: " ++ q)
  | ToolCall.other => none

/-- Usage tracking shared by `ReviveAgent.run_prompt` and
`stream_json_output`: a `total_tokens` field replaces the running count,
otherwise a `completion_tokens` field is added to it. -/
def trackUsage (tc : Nat) (e : Event) : Nat :=
  match e.usageTotal with
  | some t => t
  | none =>
    match e.usageCompletion with
    | some c => tc + c
    | none => tc

/-! ## ReviveAgent.run_prompt: prefix-accumulation decoding -/

/-- The delta logic of `ReviveAgent.run_prompt` (lines 202-218) for one
new cumulative text against the accumulated `full_response`: returns the
new `full_response` and the chunks printed / streamed. -/
def deltaStep (full text : Str) : Str × List Str :=
  if text = full then (full, [])
  else if full.isPrefixOf text then
    let delta := text.drop full.length
    (text, if delta = [] then [] else [delta])
  else (text, [text])

/-- One incoming assistant-message text (`content[0].get("text", "")`):
empty text is skipped by the `if text:` guard, otherwise the delta logic
runs. -/
def textStep (full text : Str) : Str × List Str :=
  if text = [] then (full, []) else deltaStep full text

/-- Decoding a whole sequence of incoming assistant-message texts,
collecting the streamed chunks in arrival order. -/
def decodeTexts (full : Str) : List Str → Str × List Str
  | [] => (full, [])
  | t :: ts =>
    let s := textStep full t
    let r := decodeTexts s.1 ts
    (r.1, s.2 ++ r.2)

namespace Revive

/-- The loop state of `ReviveAgent.run_prompt`: the accumulated
response, the per-call counters and the chunks handed to
`stream_callback` (in order). -/
structure DecState where
  full_response : Str := []
  tool_call_count : Nat := 0
  token_count : Nat := 0
  emitted : List Str := []
deriving DecidableEq, Repr

/-- Processing of one parsed JSON event in `ReviveAgent.run_prompt`
(lines 194-241): assistant messages run the delta logic, `started`
tool calls are counted and formatted, and the usage fields are tracked
for every parsed event. -/
def handleEvent (st : DecState) (e : Event) : DecState :=
  let st1 :=
    if e.type = "assistant" then
      match e.content.head? with
      | none => st
      | some text =>
        if text = [] then st
        else
          let p := deltaStep st.full_response text
          { st with full_response := p.1, emitted := st.emitted ++ p.2 }
    else if e.type = "tool_call" then
      if e.subtype = "started" then
        let st2 := { st with tool_call_count := st.tool_call_count + 1 }
        match format_tool_call e.toolCall with
        | some info => { st2 with emitted := st2.emitted ++ [("\n🔧 " ++ info ++ "\n").toList] }
        | none => st2
      else st
    else st
  { st1 with token_count := trackUsage st1.token_count e }

/-- Processing of one raw output line (lines 186-245): blank lines are
skipped, lines that are not valid JSON are skipped, parsed events are
handled. -/
def processLine (st : DecState) (l : LineInput) : DecState :=
  if pyStrip l.raw = [] then st
  else
    match l.parsed with
    | none => st
    | some e => handleEvent st e

/-- The whole read loop over the process output. -/
def decodeLines (lines : List LineInput) : DecState :=
  lines.foldl processLine {}

/-- Post-hoc token estimate (lines 247-250): if the stream never
reported usage and the response is non-empty, estimate
`len(full_response) // 4`. -/
def callTokenCount (lines : List LineInput) : Nat :=
  let st := decodeLines lines
  if st.token_count = 0 ∧ st.full_response ≠ [] then st.full_response.length / 4
  else st.token_count

/-- The per-call / cumulative statistics instance variables of
`ReviveAgent` (`last_*` from the last call, `total_*` accumulated). -/
structure AgentStats where
  last_tool_call_count : Nat := 0
  last_token_count : Nat := 0
  total_tool_call_count : Nat := 0
  total_token_count : Nat := 0
deriving DecidableEq, Repr

/-- Embeds `ReviveAgent.get_total_stats`. -/
def get_total_stats (s : AgentStats) : Nat × Nat :=
  (s.total_tool_call_count, s.total_token_count)

/-- The stats message streamed after every call (line 261). -/
def statsMsg (tc tk totTc totTk : Nat) : String :=
  "\n📊 This call: " ++ toString tc ++ " tool calls | ~" ++ toString tk ++
    " tokens | Total so far: " ++ toString totTc ++ " tool calls | ~" ++
    toString totTk ++ " tokens\n"

/-- Result of one `ReviveAgent.run_prompt` call: the updated instance
statistics, the chunks handed to `stream_callback` in order, and either
the returned `full_response` or the raised error message. -/
structure RunResult where
  stats : AgentStats
  emitted : List Str
  outcome : Except String Str
deriving Repr

/-- Embeds `ReviveAgent.run_prompt` (lines 144-274) over a given process output
and exit status: rejects blank prompts, decodes the stream, estimates
tokens, updates and streams the statistics, and only then checks the
process exit status, raising on a non-zero code. -/
def run_prompt (prompt : String) (stats : AgentStats) (lines : List LineInput)
    (returncode : Int) (stderr : String) : RunResult :=
  if pyStrip prompt = [] then
    { stats := stats, emitted := [], outcome := Except.error "Prompt cannot be empty or None" }
  else
    let st := decodeLines lines
    let token_count := callTokenCount lines
    let stats2 : AgentStats :=
      { last_tool_call_count := st.tool_call_count
        last_token_count := token_count
        total_tool_call_count := stats.total_tool_call_count + st.tool_call_count
        total_token_count := stats.total_token_count + token_count }
    let msg := statsMsg st.tool_call_count token_count
      stats2.total_tool_call_count stats2.total_token_count
    let emitted := st.emitted ++ [msg.toList]
    if returncode ≠ 0 then
      { stats := stats2, emitted := emitted,
        outcome := Except.error ("Cursor CLI command failed: " ++ stderr) }
    else
      { stats := stats2, emitted := emitted, outcome := Except.ok st.full_response }

end Revive

/-! ## clean_logger.stream_json_output: suffix-matching / cache mode -/

namespace CleanLog

/-- The deque `last_prints = deque(maxlen=cache_size)`: append one
element, dropping from the front when over capacity. -/
def pushCache (cacheSize : Nat) (c : List Str) (t : Str) : List Str :=
  let c2 := c ++ [t]
  if c2.length > cacheSize then c2.drop (c2.length - cacheSize) else c2

/-- The loop state of `stream_json_output`: the `buffer` of printed
parts, the bounded `last_prints` cache, the counters, the accumulated
`full_response` (concatenation of the raw non-blank lines) and the
chunks handed to `stream_callback`. -/
structure DecState where
  buffer : Str := []
  last_prints : List Str := []
  tool_call_count : Nat := 0
  token_count : Nat := 0
  full_response : Str := []
  emitted : List Str := []
deriving DecidableEq, Repr

/-- The assistant-text branch of `stream_json_output` (lines 50-63): if
the nonempty buffer is a prefix of the new text, print a single newline
and reset the buffer; otherwise print the text in full, cache it and
append it to the buffer. -/
def handleText (cacheSize : Nat) (st : DecState) (text : Str) : DecState :=
  if st.buffer ≠ [] ∧ st.buffer.isPrefixOf text then
    { st with emitted := st.emitted ++ [("\n").toList], buffer := [] }
  else
    { st with emitted := st.emitted ++ [text],
              last_prints := pushCache cacheSize st.last_prints text,
              buffer := st.buffer ++ text }

/-- Processing of one raw line in `stream_json_output` (lines 28-92):
blank lines are skipped; every other line is appended to
`full_response` before JSON parsing; assistant events with empty
content or empty text `continue` (skipping the usage tracking); tool
calls and other events are displayed; usage fields are tracked for the
lines that reach the end of the loop body. -/
def processLine (cacheSize : Nat) (st : DecState) (l : LineInput) : DecState :=
  let line := pyStrip l.raw
  if line = [] then st
  else
    let st0 := { st with full_response := st.full_response ++ line }
    match l.parsed with
    | none => st0
    | some e =>
      if e.type = "assistant" then
        match e.content.head? with
        | none => st0
        | some text =>
          if text = [] then st0
          else
            let st1 := handleText cacheSize st0 text
            { st1 with token_count := trackUsage st1.token_count e }
      else if e.type = "tool_call" then
        let st1 :=
          if e.subtype = "started" then
            let st2 := { st0 with tool_call_count := st0.tool_call_count + 1 }
            match format_tool_call_cl e.toolCall with
            | some info => { st2 with emitted := st2.emitted ++ [("🔧 " ++ info).toList] }
            | none => st2
          else st0
        { st1 with token_count := trackUsage st1.token_count e }
      else
        let st1 := { st0 with emitted := st0.emitted ++ [("🔧 " ++ e.message).toList] }
        { st1 with token_count := trackUsage st1.token_count e }

/-- The whole line loop of `stream_json_output`. -/
def decodeLines (cacheSize : Nat) (lines : List LineInput) : DecState :=
  lines.foldl (processLine cacheSize) {}

/-- The post-loop token estimate of `stream_json_output` (lines
97-100): when no usage was reported and the accumulated raw response is
non-empty, `len(full_response) // 4`. -/
def finalTokens (cacheSize : Nat) (lines : List LineInput) : Nat :=
  let st := decodeLines cacheSize lines
  if st.token_count = 0 ∧ st.full_response ≠ [] then st.full_response.length / 4
  else st.token_count

end CleanLog

/-! ## CursorCLIAgent.run_prompt: tool-call logging -/

namespace CursorCLI

/-- One entry of `tool_calls_log` in `CursorCLIAgent.run_prompt`
(subtype and the formatted tool information stored with it). -/
structure LogEntry where
  subtype : String
  toolInfo : Option String
deriving DecidableEq, Repr

/-- The loop state of `CursorCLIAgent.run_prompt`: accumulated
response, the `tool_calls_log` list and the streamed chunks.  The
reported `tool_call_count` of the result is `tool_calls_log.length`. -/
structure DecState where
  full_response : Str := []
  tool_calls_log : List LogEntry := []
  emitted : List Str := []
deriving DecidableEq, Repr

/-- Processing of one parsed JSON event in `CursorCLIAgent.run_prompt`
(lines 199-268): assistant messages run the same delta logic as
`ReviveAgent`; `started` tool calls are appended to the log only when
the tool kind is recognized; `completed` tool calls are always
appended. -/
def handleEvent (st : DecState) (e : Event) : DecState :=
  if e.type = "assistant" then
    match e.content.head? with
    | none => st
    | some text =>
      if text = [] then st
      else
        let p := deltaStep st.full_response text
        { st with full_response := p.1, emitted := st.emitted ++ p.2 }
  else if e.type = "tool_call" then
    if e.subtype = "started" then
      match format_tool_call e.toolCall with
      | some info =>
        { st with tool_calls_log := st.tool_calls_log ++ [⟨"started", some info⟩],
                  emitted := st.emitted ++ [("\nðŸ”§ " ++ info ++ "\n").toList] }
      | none => st
    else if e.subtype = "completed" then
      { st with tool_calls_log :=
          st.tool_calls_log ++ [⟨"completed", (format_tool_call e.toolCall).map (· ++ " [COMPLETED]")⟩] }
    else st
  else st

/-- Processing of one raw output line (lines 191-272): blank and
malformed lines are skipped. -/
def processLine (st : DecState) (l : LineInput) : DecState :=
  if pyStrip l.raw = [] then st
  else
    match l.parsed with
    | none => st
    | some e => handleEvent st e

/-- The whole read loop of `CursorCLIAgent.run_prompt`. -/
def decodeLines (lines : List LineInput) : DecState :=
  lines.foldl processLine {}

end CursorCLI

/-! ## IterativeLoop: failure detection and the recursive fix loop -/

namespace FixLoop

/-- The fixed `error_patterns` list of `IterativeLoop.detect_errors`. -/
def error_patterns : List String :=
  ["error:", "Error:", "ERROR:", "failed", "Failed", "FAILED",
   "exception", "Exception", "traceback", "Traceback", "not found",
   "No such file", "cannot find", "command not found", "syntax error",
   "SyntaxError", "ImportError", "ModuleNotFoundError", "NameError",
   "TypeError", "ValueError"]

/-- Case-insensitive substring test, modelling
`re.search(pattern, response, re.IGNORECASE)` for the literal patterns
of `error_patterns`. -/
def containsCI (hay pat : String) : Bool :=
  ((hay.toList.map Char.toLower).tails).any
    (fun t => (pat.toList.map Char.toLower).isPrefixOf t)

/-- Embeds `IterativeLoop.detect_errors`: any pattern matching anywhere in the
response, case-insensitively. -/
def detect_errors (response : String) : Bool :=
  error_patterns.any (fun pat => containsCI response pat)

/-- Embeds `IterativeLoop.fix_errors` (lines 121-177).  `resp k` is the
response of the agent invocation performed when `iteration_count = k`.
Returns the final outcome (`true` = errors resolved), the final value
of `iteration_count`, and the list of `iteration_count` values at which
the agent was invoked with a fix prompt (in order).  The counter is
incremented first; if it now exceeds `max_iterations` the loop stops
without invoking the agent; otherwise the agent runs and the loop
recurses while errors are still detected. -/
def fix_errors (max_iterations : Nat) (resp : Nat → String) (iteration_count : Nat) :
    Bool × Nat × List Nat :=
  let count := iteration_count + 1
  if h : max_iterations < count then
    (false, count, [])
  else
    let response := resp count
    if detect_errors response then
      let r := fix_errors max_iterations resp count
      (r.1, r.2.1, count :: r.2.2)
    else
      (true, count, [count])
termination_by max_iterations + 1 - iteration_count
decreasing_by simp only [Nat.not_lt] at h; omega

end FixLoop

/-! ## app.py: job orchestrator worker and SSE stream generator -/

namespace Orch

/-- The `status` field of a job entry in `job_status`. -/
inductive JobStatus where
  | queued
  | running
  | completed
  | failed
deriving DecidableEq, Repr

/-- The separator of 80 equals signs used by the stats messages. -/
def eqBar : String := String.mk (List.replicate 80 '=')

/-- Python `str(bool)`. -/
def pyBool : Bool → String
  | true => "True"
  | false => "False"

/-- The final stats chunk pushed on success (line 187). -/
def finalStatsMsg (tt tk : Nat) : String :=
  "\n\n" ++ eqBar ++ "\n📊 FINAL STATS FOR THIS JOB\n" ++ eqBar ++
    "\nTotal Tool Calls: " ++ toString tt ++ "\nTotal Tokens: ~" ++ toString tk ++
    "\n" ++ eqBar ++ "\n"

/-- The stats chunk pushed by the top-level exception handler
(line 211). -/
def statsBeforeFailureMsg (tt tk : Nat) : String :=
  "\n\n" ++ eqBar ++ "\n📊 STATS BEFORE FAILURE\n" ++ eqBar ++
    "\nTotal Tool Calls: " ++ toString tt ++ "\nTotal Tokens: ~" ++ toString tk ++
    "\n" ++ eqBar ++ "\n"

/-- The observable outcome of one `revive_code_task` worker run: the
final job entry fields, the full contents of the streaming queue in
push order (`none` is the terminal sentinel), the stages that were
entered, and the returned dictionary (`success` / `step` / `error`). -/
structure TaskResult where
  status : JobStatus
  current_step : String
  error : Option String := none
  queue : List (Option String)
  stagesRun : List Nat
  totals : Option (Nat × Nat) := none
  retSuccess : Bool
  retStep : Option String := none
  retError : Option String := none
deriving DecidableEq, Repr

/-- The top-level exception handler of `revive_code_task` (lines
200-216): record the failure, push the stats-before-failure chunk and
the terminal sentinel. -/
def excFail (step : String) (q : List (Option String)) (ran : List Nat)
    (tt tk : Nat) (m : String) : TaskResult :=
  { status := JobStatus.failed, current_step := step, error := some m,
    queue := q ++ [some (statsBeforeFailureMsg tt tk), none],
    stagesRun := ran, totals := some (tt, tk),
    retSuccess := false, retError := some m }

/-- Embeds `revive_code_task` (lines 70-216).  Each stage is summarized by its
outcome: `Except.ok b` is the boolean post-condition result returned by
the corresponding `utils` helper, `Except.error m` an exception raised
inside the stage; `e1 ... e4` are the text chunks streamed to the queue
by the agent while the stage runs, and `tt`/`tk` the cumulative agent
statistics.  The worker enters stages in the fixed order, pushes a
stage marker on entry, and stops at the first failure. -/
def revive_code_task (tt tk : Nat) (s1 s2 s3 : Except String Bool)
    (s4 : Except String (Bool × Bool)) (e1 e2 e3 e4 : List String) : TaskResult :=
  let step1 := "Setting up R_base environment"
  let q1 := some "\n\n=== Setting up R_base environment ===\n" :: e1.map some
  match s1 with
  | Except.error m => excFail step1 q1 [1] tt tk m
  | Except.ok false =>
    { status := JobStatus.failed, current_step := step1,
      error := some "R_base environment setup failed",
      queue := q1 ++ [none], stagesRun := [1],
      retSuccess := false, retStep := some "setup_r_base" }
  | Except.ok true =>
    let step2 := "Setting up R_old environment"
    let q2 := q1 ++ some "\n\n=== Setting up R_old environment ===\n" :: e2.map some
    match s2 with
    | Except.error m => excFail step2 q2 [1, 2] tt tk m
    | Except.ok false =>
      { status := JobStatus.failed, current_step := step2,
        error := some "R_old environment setup failed",
        queue := q2 ++ [none], stagesRun := [1, 2],
        retSuccess := false, retStep := some "setup_r_old" }
    | Except.ok true =>
      let step3 := "Resolving dependencies"
      let q3 := q2 ++ some "\n\n=== Resolving dependencies ===\n" :: e3.map some
      match s3 with
      | Except.error m => excFail step3 q3 [1, 2, 3] tt tk m
      | Except.ok false =>
        { status := JobStatus.failed, current_step := step3,
          error := some "Dependencies resolution failed",
          queue := q3 ++ [none], stagesRun := [1, 2, 3],
          retSuccess := false, retStep := some "resolve_dependencies" }
      | Except.ok true =>
        let step4 := "Final verification"
        let q4 := q3 ++ some "\n\n=== Final verification ===\n" :: e4.map some
        match s4 with
        | Except.error m => excFail step4 q4 [1, 2, 3, 4] tt tk m
        | Except.ok (base_correct, old_correct) =>
          if ¬ base_correct ∨ ¬ old_correct then
            { status := JobStatus.failed, current_step := step4,
              error := some ("Verification failed - Base: " ++ pyBool base_correct ++
                ", Old: " ++ pyBool old_correct),
              queue := q4 ++ [none], stagesRun := [1, 2, 3, 4],
              retSuccess := false, retStep := some "final_verification" }
          else
            { status := JobStatus.completed,
              current_step := "All tasks completed successfully",
              queue := q4 ++ [some (finalStatsMsg tt tk), none],
              stagesRun := [1, 2, 3, 4], totals := some (tt, tk),
              retSuccess := true }

/-- The heartbeat comment yielded by the SSE generator on a queue
timeout. -/
def hbChunk : String := ": heartbeat\n\n"

/-- The end-of-stream marker yielded by the SSE generator. -/
def doneChunk : String := "data: [DONE]\n\n"

/-- A data chunk as yielded by the SSE generator (newlines escaped). -/
def sseChunk (t : String) : String := "data: " ++ t.replace "\n" "\\n" ++ "\n\n"

/-- The consumer loop of the `/stream/<job_id>` generator (lines
582-606) reading a queue whose remaining contents are `items` (the
producer has stopped, so no further items arrive).  One unit of fuel is
one `q.get(timeout=1.0)` attempt: a `none` item yields `[DONE]` and
stops; a text item is yielded and the loop continues; an empty queue
yields a heartbeat and then stops with `[DONE]` if the job status is
already terminal.  Returns the yielded chunks and whether the stream
terminated with `[DONE]`. -/
def consume (status : JobStatus) : Nat → List (Option String) → List String × Bool
  | 0, _ => ([], false)
  | _ + 1, none :: _ => ([doneChunk], true)
  | fuel + 1, some t :: rest =>
    let r := consume status fuel rest
    (sseChunk t :: r.1, r.2)
  | fuel + 1, [] =>
    if status = JobStatus.completed ∨ status = JobStatus.failed then
      ([hbChunk, doneChunk], true)
    else
      let r := consume status fuel []
      (hbChunk :: r.1, r.2)

end Orch

/-! ## Claim C1: prefix-accumulation decoding -/

/-- The per-arrival rule in the words of the spec: `T == C` emits
nothing; `T` starting with `C` emits exactly the suffix `T[len(C):]`
and sets `C = T`; any other arrival emits `T` in full and sets
`C = T`. -/
def specStep (C T : Str) : Str × List Str :=
  if T = C then (C, [])
  else if C.isPrefixOf T then (T, [T.drop C.length])
  else (T, [T])

/-- The spec rule folded over a sequence of arrivals, chunks delivered
in arrival order, one batch per arrival. -/
def specDecode (C : Str) : List Str → Str × List Str
  | [] => (C, [])
  | t :: ts =>
    let s := specStep C t
    let r := specDecode s.1 ts
    (r.1, s.2 ++ r.2)

/-- A list reflexively starts with itself. -/
theorem isPrefixOf_self (l : Str) : l.isPrefixOf l = true :=
  (prefixOf_iff l l).mpr ⟨[], by simp⟩

/-- For a nonempty arrival, the decoding step of
`ReviveAgent.run_prompt` agrees with the rule stated by the spec. -/
theorem textStep_eq_specStep (C T : Str) (hT : T ≠ []) : textStep C T = specStep C T := by
  unfold textStep specStep deltaStep
  by_cases he : T = C
  · simp [hT, he]
  · by_cases hp : C.isPrefixOf T = true
    · obtain ⟨t, rfl⟩ := (prefixOf_iff C T).mp hp
      have ht : t ≠ [] := by rintro rfl; simp at he
      simp [hT, he, hp, List.drop_left, ht]
    · simp [hT, he, hp]

/-- Claim C1: prefix-accumulation decoding.  For every sequence of
nonempty incoming assistant-message texts, the decoder of
`ReviveAgent.run_prompt` emits exactly what the spec rule prescribes:
an arrival equal to the previously emitted cumulative text emits
nothing, an arrival extending it emits exactly the suffix, and any
other arrival is emitted in full; the chunks are delivered to the
stream callback in arrival order, once per arrival. -/
theorem prefix_accumulation_decoding (ts : List Str) (h : ∀ t ∈ ts, t ≠ []) (C : Str) :
    decodeTexts C ts = specDecode C ts := by
  induction ts generalizing C with
  | nil => rfl
  | cons t rest ih =>
    have ht : t ≠ [] := h t (by simp)
    have hrest : ∀ x ∈ rest, x ≠ [] := fun x hx => h x (by simp [hx])
    simp only [decodeTexts, specDecode, textStep_eq_specStep C t ht, ih hrest]

/-- Witness for C1 at the end-to-end scenario of the spec: the texts
`["Hi", "Hi there", "Hi there", "Hi there, friend"]` produce the deltas
`["Hi", " there", ", friend"]` (the duplicate emits nothing). -/
theorem prefix_accumulation_decoding_witness :
    decodeTexts []
        ["Hi".toList, "Hi there".toList, "Hi there".toList, "Hi there, friend".toList] =
      specDecode []
        ["Hi".toList, "Hi there".toList, "Hi there".toList, "Hi there, friend".toList] ∧
    (decodeTexts []
        ["Hi".toList, "Hi there".toList, "Hi there".toList, "Hi there, friend".toList]).2 =
      ["Hi".toList, " there".toList, ", friend".toList] :=
  ⟨prefix_accumulation_decoding _ (by decide) _, by decide⟩

/-! ## Claims C4 and C5: the iterative fix loop -/

/-- When every response carries a failure signature, the loop starting
at counter value `count` with `count + d = max_iterations` performs one
agent invocation for each counter value `count+1 ... max_iterations`,
ends with the counter at `max_iterations + 1`, and reports failure. -/
theorem fix_errors_all_failing (d max_iterations : Nat) (resp : Nat → String)
    (hall : ∀ k, FixLoop.detect_errors (resp k) = true) (count : Nat)
    (hd : count + d = max_iterations) :
    FixLoop.fix_errors max_iterations resp count =
      (false, max_iterations + 1, List.range' (count + 1) d) := by
  induction d generalizing count with
  | zero =>
    rw [FixLoop.fix_errors]
    have hlt : max_iterations < count + 1 := by omega
    simp [hlt]
    omega
  | succ n ih =>
    rw [FixLoop.fix_errors]
    have hlt : ¬ max_iterations < count + 1 := by omega
    simp only [hlt, dite_false, hall (count + 1), if_true, ih (count + 1) (by omega)]
    simp [List.range']

/-- Claim C4: fix-loop attempt bound.  For every `max_iterations`, if a
failure signature is detected in every agent response, `fix_errors`
starting from a zero counter invokes the agent exactly at the counter
values `1 ... max_iterations` (the counter is incremented before each
invocation), performs exactly `max_iterations` fix attempts, and then
terminates reporting failure. -/
theorem fix_loop_attempt_bound (max_iterations : Nat) (resp : Nat → String)
    (hall : ∀ k, FixLoop.detect_errors (resp k) = true) :
    FixLoop.fix_errors max_iterations resp 0 =
      (false, max_iterations + 1, List.range' 1 max_iterations) ∧
    (FixLoop.fix_errors max_iterations resp 0).2.2.length = max_iterations := by
  have h := fix_errors_all_failing max_iterations max_iterations resp hall 0 (by omega)
  exact ⟨h, by rw [h]; simp⟩

/-- Witness for C4: with `max_iterations = 3` and every response
containing a failure signature, the loop makes exactly the three fix
attempts at counter values 1, 2, 3 and ends in failure. -/
theorem fix_loop_attempt_bound_witness :
    FixLoop.fix_errors 3 (fun _ => "error: still broken") 0 = (false, 4, [1, 2, 3]) := by
  have h := (fix_loop_attempt_bound 3 (fun _ => "error: still broken")
    (fun k => by
      show FixLoop.detect_errors "error: still broken" = true
      decide)).1
  simpa [List.range'] using h

/-- Counterexample to C5 as stated: with `max_iterations = 0` and a
failure signature in every response, the iteration counter ends at 1,
which exceeds `max_iterations`; the loop terminates with the counter at
`max_iterations + 1`, not at `max_iterations`. -/
theorem fixstate_counter_cex :
    FixLoop.fix_errors 0 (fun _ => "error: still broken") 0 = (false, 1, []) ∧
    ¬ (1 ≤ 0) := by
  constructor
  · rw [FixLoop.fix_errors]
    simp
  · omega

/-- Bounds on the fix loop from an arbitrary starting counter value
`count ≤ max_iterations`. -/
theorem fix_errors_bounds (d max_iterations : Nat) (resp : Nat → String) (count : Nat)
    (hd : max_iterations - count ≤ d) (hc : count ≤ max_iterations) :
    (FixLoop.fix_errors max_iterations resp count).2.1 ≤ max_iterations + 1 ∧
    (FixLoop.fix_errors max_iterations resp count).2.2.length ≤ max_iterations - count ∧
    ((FixLoop.fix_errors max_iterations resp count).1 = true →
       (FixLoop.fix_errors max_iterations resp count).2.1 ≤ max_iterations ∧
       FixLoop.detect_errors (resp (FixLoop.fix_errors max_iterations resp count).2.1) = false) ∧
    ((FixLoop.fix_errors max_iterations resp count).1 = false →
       (FixLoop.fix_errors max_iterations resp count).2.1 = max_iterations + 1) := by
  induction d generalizing count with
  | zero =>
    have hlt : max_iterations < count + 1 := by omega
    have hval : FixLoop.fix_errors max_iterations resp count = (false, count + 1, []) := by
      rw [FixLoop.fix_errors]
      simp [hlt]
    rw [hval]
    exact ⟨by show count + 1 ≤ max_iterations + 1; omega, by simp, by simp,
      fun _ => by show count + 1 = max_iterations + 1; omega⟩
  | succ n ih =>
    by_cases hlt : max_iterations < count + 1
    · have hval : FixLoop.fix_errors max_iterations resp count = (false, count + 1, []) := by
        rw [FixLoop.fix_errors]
        simp [hlt]
      rw [hval]
      exact ⟨by show count + 1 ≤ max_iterations + 1; omega, by simp, by simp,
        fun _ => by show count + 1 = max_iterations + 1; omega⟩
    · have hc2 : count + 1 ≤ max_iterations := by omega
      by_cases hdet : FixLoop.detect_errors (resp (count + 1)) = true
      · have hval : FixLoop.fix_errors max_iterations resp count =
            ((FixLoop.fix_errors max_iterations resp (count + 1)).1,
             (FixLoop.fix_errors max_iterations resp (count + 1)).2.1,
             (count + 1) :: (FixLoop.fix_errors max_iterations resp (count + 1)).2.2) := by
          rw [FixLoop.fix_errors]
          simp [hlt, hdet]
        have hrec := ih (count + 1) (by omega) hc2
        rw [hval]
        refine ⟨hrec.1, ?_, hrec.2.2.1, hrec.2.2.2⟩
        have := hrec.2.1
        simp only [List.length_cons]
        omega
      · have hdetf : FixLoop.detect_errors (resp (count + 1)) = false := by
          simpa using hdet
        have hval : FixLoop.fix_errors max_iterations resp count = (true, count + 1, [count + 1]) := by
          rw [FixLoop.fix_errors]
          simp [hlt, hdetf]
        rw [hval]
        refine ⟨by show count + 1 ≤ max_iterations + 1; omega, ?_,
          fun _ => ⟨by show count + 1 ≤ max_iterations; omega, by simpa using hdetf⟩, by simp⟩
        show [count + 1].length ≤ max_iterations - count
        simp only [List.length_cons, List.length_nil]
        omega

/-- Claim C5, amended: during the fix loop the iteration counter can
reach `max_iterations + 1` (it is incremented before the bound check),
so it is bounded by `max_iterations + 1`, not `max_iterations`; the
number of fix attempts is bounded by `max_iterations`; the loop
terminates with success exactly when no failure signature is detected
in the latest output (with the counter at most `max_iterations`), and
with failure exactly when the counter has reached
`max_iterations + 1`. -/
theorem fixstate_invariant_amended (max_iterations : Nat) (resp : Nat → String) :
    (FixLoop.fix_errors max_iterations resp 0).2.1 ≤ max_iterations + 1 ∧
    (FixLoop.fix_errors max_iterations resp 0).2.2.length ≤ max_iterations ∧
    ((FixLoop.fix_errors max_iterations resp 0).1 = true →
       (FixLoop.fix_errors max_iterations resp 0).2.1 ≤ max_iterations ∧
       FixLoop.detect_errors (resp (FixLoop.fix_errors max_iterations resp 0).2.1) = false) ∧
    ((FixLoop.fix_errors max_iterations resp 0).1 = false →
       (FixLoop.fix_errors max_iterations resp 0).2.1 = max_iterations + 1) := by
  simpa using fix_errors_bounds max_iterations max_iterations resp 0 (by omega) (by omega)

/-- Witness for the amended C5: with `max_iterations = 1` and a clean
response, the loop resolves at counter value 1, within the bound. -/
theorem fixstate_invariant_amended_witness :
    (FixLoop.fix_errors 1 (fun _ => "all good") 0).1 = true ∧
    (FixLoop.fix_errors 1 (fun _ => "all good") 0).2.1 ≤ 1 := by
  have heval : FixLoop.fix_errors 1 (fun _ => "all good") 0 = (true, 1, [1]) := by
    rw [FixLoop.fix_errors]
    simp [show FixLoop.detect_errors "all good" = false from by decide]
  have h := (fixstate_invariant_amended 1 (fun _ => "all good")).2.2.1 (by rw [heval])
  exact ⟨by rw [heval], h.1⟩

/-! ## Claim C7: tool-call counting -/

/-- A non-blank, well-formed line carrying a `tool_call` event with
subtype `started`. -/
def isStartedToolCallLine (l : LineInput) : Bool :=
  decide (pyStrip l.raw ≠ []) &&
    match l.parsed with
    | some e => e.type == "tool_call" && e.subtype == "started"
    | none => false

/-- A non-blank, well-formed line carrying a `started` tool call whose
tool kind the formatter recognizes. -/
def isStartedRecognizedLine (l : LineInput) : Bool :=
  decide (pyStrip l.raw ≠ []) &&
    match l.parsed with
    | some e => e.type == "tool_call" && e.subtype == "started" &&
        (format_tool_call e.toolCall).isSome
    | none => false

/-- A non-blank, well-formed line carrying a `tool_call` event with
subtype `completed`. -/
def isCompletedToolCallLine (l : LineInput) : Bool :=
  decide (pyStrip l.raw ≠ []) &&
    match l.parsed with
    | some e => e.type == "tool_call" && e.subtype == "completed"
    | none => false

/-- Processing one line in `ReviveAgent.run_prompt` increments the
tool-call counter exactly on started-subtype tool-call lines. -/
theorem Revive.processLine_tool_count (st : Revive.DecState) (l : LineInput) :
    (Revive.processLine st l).tool_call_count =
      st.tool_call_count + (if isStartedToolCallLine l then 1 else 0) := by
  obtain ⟨raw, parsed⟩ := l
  unfold Revive.processLine isStartedToolCallLine
  by_cases htrim : pyStrip raw = []
  · simp [htrim]
  · cases parsed with
    | none => simp [htrim]
    | some e =>
      obtain ⟨ty, content, subty, tc, msg, ut, uc⟩ := e
      rw [if_neg htrim]
      unfold Revive.handleEvent
      by_cases h1 : ty = "assistant"
      · have h2 : (ty == "tool_call") = false := by simp [h1]
        cases content with
        | nil => simp [h1, h2, htrim]
        | cons text rest => by_cases h3 : text = [] <;> simp [h1, h2, h3, htrim]
      · by_cases h2 : ty = "tool_call"
        · by_cases h4 : subty = "started"
          · cases tc <;> simp [h1, h2, h4, htrim, format_tool_call]
          · simp [h1, h2, h4, htrim]
        · simp [h1, h2, htrim]

/-- Processing one line in `CursorCLIAgent.run_prompt` appends to
`tool_calls_log` exactly on recognized started lines and on completed
lines. -/
theorem CursorCLI.processLine_log_length (st : CursorCLI.DecState) (l : LineInput) :
    (CursorCLI.processLine st l).tool_calls_log.length =
      st.tool_calls_log.length + (if isStartedRecognizedLine l then 1 else 0) +
        (if isCompletedToolCallLine l then 1 else 0) := by
  obtain ⟨raw, parsed⟩ := l
  unfold CursorCLI.processLine isStartedRecognizedLine isCompletedToolCallLine
  by_cases htrim : pyStrip raw = []
  · simp [htrim]
  · cases parsed with
    | none => simp [htrim]
    | some e =>
      obtain ⟨ty, content, subty, tc, msg, ut, uc⟩ := e
      rw [if_neg htrim]
      unfold CursorCLI.handleEvent
      by_cases h1 : ty = "assistant"
      · have h2 : (ty == "tool_call") = false := by simp [h1]
        cases content with
        | nil => simp [h1, htrim, h2]
        | cons text rest => by_cases h3 : text = [] <;> simp [h1, h3, htrim, h2]
      · by_cases h2 : ty = "tool_call"
        · by_cases h4 : subty = "started"
          · have h6 : (subty == "completed") = false := by simp [h4]
            cases tc <;> simp [h1, h2, h4, h6, htrim, format_tool_call]
          · by_cases h6 : subty = "completed" <;> simp [h1, h2, h4, h6, htrim]
        · simp [h1, h2, htrim]

/-- Claim C7, amended: in `ReviveAgent.run_prompt` only started-subtype
tool-call events increment the tool-call counter, and a stream with N
started events yields a count of exactly N; in
`CursorCLIAgent.run_prompt`, however, the reported count is the length
of `tool_calls_log`, to which started events are appended only when the
tool kind is recognized and completed events are always appended, so
the count is (recognized started) + (completed). -/
theorem tool_call_counting_amended (lines : List LineInput) :
    (Revive.decodeLines lines).tool_call_count =
      lines.countP isStartedToolCallLine ∧
    (CursorCLI.decodeLines lines).tool_calls_log.length =
      lines.countP isStartedRecognizedLine + lines.countP isCompletedToolCallLine := by
  constructor
  · have h : ∀ st : Revive.DecState, (lines.foldl Revive.processLine st).tool_call_count =
        st.tool_call_count + lines.countP isStartedToolCallLine := by
      induction lines with
      | nil => intro st; simp
      | cons a as ih =>
        intro st
        simp only [List.foldl_cons, List.countP_cons, ih, Revive.processLine_tool_count]
        cases h : isStartedToolCallLine a <;> simp [h] <;> omega
    simpa [Revive.decodeLines] using h {}
  · have h : ∀ st : CursorCLI.DecState,
        (lines.foldl CursorCLI.processLine st).tool_calls_log.length =
          st.tool_calls_log.length + lines.countP isStartedRecognizedLine +
            lines.countP isCompletedToolCallLine := by
      induction lines with
      | nil => intro st; simp
      | cons a as ih =>
        intro st
        simp only [List.foldl_cons, List.countP_cons, ih, CursorCLI.processLine_log_length]
        cases h1 : isStartedRecognizedLine a <;> cases h2 : isCompletedToolCallLine a <;>
          simp [h1, h2] <;> omega
    simpa [CursorCLI.decodeLines] using h {}

/-- Counterexample to C7 as stated: an event sequence with N = 1
started and M = 1 completed tool-call events yields a
`CursorCLIAgent.run_prompt` tool-call count of 2, not N = 1: completed
events are appended to `tool_calls_log` a second time. -/
theorem tool_call_counting_cex :
    (CursorCLI.decodeLines
      [⟨"\x7b\"type\":\"tool_call\",\"subtype\":\"started\",\"tool_call\":\x7b\"readToolCall\":\x7b\"args\":\x7b\"path\":\"f.py\"\x7d\x7d\x7d\x7d",
         some { type := "tool_call", subtype := "started", toolCall := ToolCall.read "f.py" }⟩,
       ⟨"\x7b\"type\":\"tool_call\",\"subtype\":\"completed\",\"tool_call\":\x7b\"readToolCall\":\x7b\"args\":\x7b\"path\":\"f.py\"\x7d\x7d\x7d\x7d",
         some { type := "tool_call", subtype := "completed", toolCall := ToolCall.read "f.py" }⟩]).tool_calls_log.length = 2 ∧
    ([⟨"\x7b\"type\":\"tool_call\",\"subtype\":\"started\",\"tool_call\":\x7b\"readToolCall\":\x7b\"args\":\x7b\"path\":\"f.py\"\x7d\x7d\x7d\x7d",
         some { type := "tool_call", subtype := "started", toolCall := ToolCall.read "f.py" }⟩,
       ⟨"\x7b\"type\":\"tool_call\",\"subtype\":\"completed\",\"tool_call\":\x7b\"readToolCall\":\x7b\"args\":\x7b\"path\":\"f.py\"\x7d\x7d\x7d\x7d",
         some { type := "tool_call", subtype := "completed", toolCall := ToolCall.read "f.py" }⟩] : List LineInput).countP isStartedToolCallLine = 1 ∧
    (2 : Nat) ≠ 1 := by
  refine ⟨?_, ?_, by omega⟩ <;> decide

/-! ## Claim C8: blank and malformed lines -/

/-- Claim C8, amended: in `ReviveAgent.run_prompt` a blank or
non-JSON line leaves the whole decoder state unchanged; in
`stream_json_output` a blank line leaves the state unchanged, but a
non-blank line that is not valid JSON is appended to the aggregated
`full_response` text before parsing (counters, buffer, cache and
emitted chunks are unchanged). -/
theorem malformed_line_frame_amended (st : Revive.DecState) (stc : CleanLog.DecState)
    (cacheSize : Nat) (l : LineInput) :
    (pyStrip l.raw = [] ∨ l.parsed = none → Revive.processLine st l = st) ∧
    (pyStrip l.raw = [] → CleanLog.processLine cacheSize stc l = stc) ∧
    (pyStrip l.raw ≠ [] → l.parsed = none →
       CleanLog.processLine cacheSize stc l =
         { stc with full_response := stc.full_response ++ pyStrip l.raw }) := by
  refine ⟨?_, ?_, ?_⟩
  · rintro (h | h)
    · simp [Revive.processLine, h]
    · by_cases ht : pyStrip l.raw = [] <;> simp [Revive.processLine, ht, h]
  · intro h
    simp [CleanLog.processLine, h]
  · intro ht h
    simp [CleanLog.processLine, ht, h]

/-- Witness for the amended C8: a malformed line and a blank line each
leave the `ReviveAgent` decoder state untouched, and a blank line
leaves the `stream_json_output` state untouched. -/
theorem malformed_line_frame_amended_witness :
    Revive.processLine {} ⟨"this is not json", none⟩ = {} ∧
    CleanLog.processLine 15 {} ⟨"   ", none⟩ = {} := by
  have h1 := (malformed_line_frame_amended {} {} 15 ⟨"this is not json", none⟩).1 (Or.inr rfl)
  have h2 := (malformed_line_frame_amended {} {} 15 ⟨"   ", none⟩).2.1 (by decide)
  exact ⟨h1, h2⟩

/-- Counterexample to C8 as stated: in `stream_json_output` a non-blank
line that is not valid JSON changes the aggregated response text: the
line is appended to `full_response` before `json.loads` is attempted. -/
theorem malformed_line_cex :
    (CleanLog.processLine 15 {} ⟨"this is not json", none⟩).full_response =
      "this is not json".toList ∧
    "this is not json".toList ≠ ([] : Str) ∧
    CleanLog.processLine 15 {} ⟨"this is not json", none⟩ ≠ ({} : CleanLog.DecState) := by
  refine ⟨?_, ?_, ?_⟩ <;> decide

/-! ## Claim C9: suffix-matching / cache mode -/

/-- The bounded cache never exceeds its capacity after a push. -/
theorem pushCache_length_le (n : Nat) (c : List Str) (t : Str) :
    (CleanLog.pushCache n c t).length ≤ n := by
  simp only [CleanLog.pushCache]
  by_cases h : (c ++ [t]).length > n
  · rw [if_pos h, List.length_drop]
    omega
  · rw [if_neg h]
    omega

/-- The function `handleText` keeps the cache within its capacity. -/
theorem handleText_cache_le (cacheSize : Nat) (st : CleanLog.DecState) (text : Str)
    (h : st.last_prints.length ≤ cacheSize) :
    (CleanLog.handleText cacheSize st text).last_prints.length ≤ cacheSize := by
  unfold CleanLog.handleText
  split
  · simpa using h
  · simpa using pushCache_length_le cacheSize st.last_prints text

/-- The function `processLine` keeps the cache within its capacity. -/
theorem processLine_cache_le (cacheSize : Nat) (st : CleanLog.DecState) (l : LineInput)
    (h : st.last_prints.length ≤ cacheSize) :
    (CleanLog.processLine cacheSize st l).last_prints.length ≤ cacheSize := by
  unfold CleanLog.processLine
  by_cases ht : pyStrip l.raw = []
  · simpa [ht] using h
  · cases hp : l.parsed with
    | none => simpa [ht, hp] using h
    | some e =>
      obtain ⟨ty, content, subty, tc, msg, ut, uc⟩ := e
      by_cases h1 : ty = "assistant"
      · cases content with
        | nil => simpa [ht, hp, h1] using h
        | cons text rest =>
          by_cases h3 : text = []
          · simpa [ht, hp, h1, h3] using h
          · have hht := handleText_cache_le cacheSize
              { st with full_response := st.full_response ++ pyStrip l.raw } text h
            simpa [ht, hp, h1, h3] using hht
      · by_cases h2 : ty = "tool_call"
        · by_cases h4 : subty = "started"
          · cases tc <;> simpa [ht, hp, h1, h2, h4, format_tool_call_cl] using h
          · simpa [ht, hp, h1, h2, h4] using h
        · simpa [ht, hp, h1, h2] using h

/-- Claim C9, amended: in `stream_json_output`, whenever the nonempty
buffered-so-far content is a prefix of the new delta — including when
the delta strictly extends it — the decoder emits exactly one newline
and resets the buffer; it never emits the net-new suffix.  Otherwise it
emits the delta in full, appends it to the buffer and pushes it onto
the bounded cache, whose size never exceeds the capacity (15 in the
application). -/
theorem cache_mode_amended (cacheSize : Nat) (st : CleanLog.DecState) (text : Str)
    (lines : List LineInput) :
    (st.buffer ≠ [] → st.buffer.isPrefixOf text = true →
       CleanLog.handleText cacheSize st text =
         { st with emitted := st.emitted ++ ["\n".toList], buffer := [] }) ∧
    (st.buffer = [] ∨ st.buffer.isPrefixOf text = false →
       CleanLog.handleText cacheSize st text =
         { st with emitted := st.emitted ++ [text],
                   last_prints := CleanLog.pushCache cacheSize st.last_prints text,
                   buffer := st.buffer ++ text }) ∧
    (CleanLog.decodeLines cacheSize lines).last_prints.length ≤ cacheSize := by
  refine ⟨?_, ?_, ?_⟩
  · intro hb hpre
    have hcond : st.buffer ≠ [] ∧ st.buffer.isPrefixOf text = true := ⟨hb, hpre⟩
    unfold CleanLog.handleText
    rw [if_pos hcond]
  · intro hor
    have hcond : ¬ (st.buffer ≠ [] ∧ st.buffer.isPrefixOf text = true) := by
      rcases hor with h | h
      · exact fun hc => hc.1 h
      · exact fun hc => by simp [hc.2] at h
    unfold CleanLog.handleText
    rw [if_neg hcond]
  · have h : ∀ st0 : CleanLog.DecState, st0.last_prints.length ≤ cacheSize →
        (lines.foldl (CleanLog.processLine cacheSize) st0).last_prints.length ≤ cacheSize := by
      induction lines with
      | nil => intro st0 h0; simpa using h0
      | cons a as ih => intro st0 h0; exact ih _ (processLine_cache_le cacheSize st0 a h0)
    exact h {} (by simp)

/-- Witness for the amended C9: with buffer `"ab"` and new delta
`"abc"`, the decoder emits exactly one newline and resets the buffer. -/
theorem cache_mode_amended_witness :
    CleanLog.handleText 15
        { buffer := "ab".toList, emitted := ["ab".toList], last_prints := ["ab".toList] }
        "abc".toList =
      { buffer := [], emitted := ["ab".toList, "\n".toList], last_prints := ["ab".toList] } := by
  have h := (cache_mode_amended 15
    { buffer := "ab".toList, emitted := ["ab".toList], last_prints := ["ab".toList] }
    "abc".toList []).1 (by decide) (by decide)
  simpa using h

/-- Counterexample to C9 as stated: after emitting `"ab"`, the arrival
`"abc"` has the buffered content as its own prefix, and the decoder
emits a single newline — not the net-new suffix `"c"` the claim
prescribes. -/
theorem cache_mode_cex :
    (CleanLog.decodeLines 15
      [⟨"\x7b\"type\":\"assistant\",\"message\":\x7b\"content\":[\x7b\"type\":\"text\",\"text\":\"ab\"\x7d]\x7d\x7d",
         some { type := "assistant", content := ["ab".toList] }⟩,
       ⟨"\x7b\"type\":\"assistant\",\"message\":\x7b\"content\":[\x7b\"type\":\"text\",\"text\":\"abc\"\x7d]\x7d\x7d",
         some { type := "assistant", content := ["abc".toList] }⟩]).emitted =
      ["ab".toList, "\n".toList] ∧
    ["ab".toList, "\n".toList] ≠ ["ab".toList, "c".toList] := by
  constructor <;> decide

/-! ## Claim C6: token accounting -/

/-- In `stream_json_output`, assistant events with empty content or
empty first text reach a `continue` before the usage tracking runs. -/
def skipsUsage (e : Event) : Bool :=
  e.type == "assistant" &&
    match e.content.head? with
    | none => true
    | some text => decide (text = [])

/-- The function `handleText` does not touch the token count. -/
theorem handleText_token (cacheSize : Nat) (st : CleanLog.DecState) (text : Str) :
    (CleanLog.handleText cacheSize st text).token_count = st.token_count := by
  unfold CleanLog.handleText
  split <;> rfl

/-- Every parsed event processed by `ReviveAgent.run_prompt` has its
usage fields tracked. -/
theorem Revive.processLine_token (st : Revive.DecState) (l : LineInput) (e : Event)
    (ht : pyStrip l.raw ≠ []) (hp : l.parsed = some e) :
    (Revive.processLine st l).token_count = trackUsage st.token_count e := by
  unfold Revive.processLine
  rw [if_neg ht, hp]
  unfold Revive.handleEvent
  by_cases h1 : e.type = "assistant"
  · rcases hc : e.content.head? with _ | text
    · simp [h1, hc]
    · by_cases h3 : text = [] <;> simp [h1, hc, h3]
  · by_cases h2 : e.type = "tool_call"
    · by_cases h4 : e.subtype = "started"
      · rcases h5 : format_tool_call e.toolCall with _ | info <;> simp [h1, h2, h4, h5]
      · simp [h1, h2, h4]
    · simp [h1, h2]

/-- A parsed event processed by `stream_json_output` has its usage
fields tracked unless the early `continue` of the assistant branch
skips it. -/
theorem CleanLog.processLine_token_tracked (cacheSize : Nat) (st : CleanLog.DecState) (l : LineInput)
    (e : Event) (ht : pyStrip l.raw ≠ []) (hp : l.parsed = some e) :
    (CleanLog.processLine cacheSize st l).token_count =
      (if skipsUsage e then st.token_count else trackUsage st.token_count e) := by
  unfold CleanLog.processLine skipsUsage
  simp only [hp]
  rw [if_neg ht]
  by_cases h1 : e.type = "assistant"
  · rcases hc : e.content.head? with _ | text
    · simp [h1, hc]
    · by_cases h3 : text = []
      · simp [h1, hc, h3]
      · simp [h1, hc, h3, handleText_token]
  · have h1b : (e.type == "assistant") = false := by simp [h1]
    by_cases h2 : e.type = "tool_call"
    · by_cases h4 : e.subtype = "started"
      · rcases h5 : format_tool_call_cl e.toolCall with _ | info <;>
          simp [h1, h1b, h2, h4, h5]
      · simp [h1, h1b, h2, h4]
    · simp [h1, h1b, h2]

/-- Claim C6, amended: in `ReviveAgent.run_prompt` every parsed event
carrying `usage.total_tokens` replaces the running token count, every
parsed event carrying only `usage.completion_tokens` adds to it, and a
zero count at end of stream with a non-empty reconstructed response is
replaced by `len(full_response) // 4`.  In
`stream_json_output`, however, the same rules apply only to events that
are not skipped early: an assistant event with empty content or empty
text never reaches the usage tracking (its usage fields are ignored),
and the end-of-stream estimate divides the length of the concatenation
of the raw non-blank lines, not of the reconstructed message text. -/
theorem token_accounting_amended (st : Revive.DecState) (stc : CleanLog.DecState)
    (cacheSize : Nat) (l : LineInput) (e : Event) (lines : List LineInput) :
    (pyStrip l.raw ≠ [] → l.parsed = some e →
      (∀ t, e.usageTotal = some t → (Revive.processLine st l).token_count = t) ∧
      (e.usageTotal = none → ∀ c, e.usageCompletion = some c →
         (Revive.processLine st l).token_count = st.token_count + c)) ∧
    ((Revive.decodeLines lines).token_count = 0 →
       (Revive.decodeLines lines).full_response ≠ [] →
       Revive.callTokenCount lines = (Revive.decodeLines lines).full_response.length / 4) ∧
    (pyStrip l.raw ≠ [] → l.parsed = some e → skipsUsage e = false →
      (∀ t, e.usageTotal = some t →
         (CleanLog.processLine cacheSize stc l).token_count = t) ∧
      (e.usageTotal = none → ∀ c, e.usageCompletion = some c →
         (CleanLog.processLine cacheSize stc l).token_count = stc.token_count + c)) ∧
    (pyStrip l.raw ≠ [] → l.parsed = some e → skipsUsage e = true →
       (CleanLog.processLine cacheSize stc l).token_count = stc.token_count) ∧
    ((CleanLog.decodeLines cacheSize lines).token_count = 0 →
       (CleanLog.decodeLines cacheSize lines).full_response ≠ [] →
       CleanLog.finalTokens cacheSize lines =
         (CleanLog.decodeLines cacheSize lines).full_response.length / 4) := by
  refine ⟨?_, ?_, ?_, ?_, ?_⟩
  · intro ht hp
    rw [Revive.processLine_token st l e ht hp]
    constructor
    · intro t htot
      simp [trackUsage, htot]
    · intro htot c hc
      simp [trackUsage, htot, hc]
  · intro h0 hne
    simp [Revive.callTokenCount, h0, hne]
  · intro ht hp hskip
    rw [CleanLog.processLine_token_tracked cacheSize stc l e ht hp]
    constructor
    · intro t htot
      simp [hskip, trackUsage, htot]
    · intro htot c hc
      simp [hskip, trackUsage, htot, hc]
  · intro ht hp hskip
    rw [CleanLog.processLine_token_tracked cacheSize stc l e ht hp]
    simp [hskip]
  · intro h0 hne
    simp [CleanLog.finalTokens, h0, hne]

/-- Witness for the amended C6: a `result` event carrying
`usage.total_tokens = 42` replaces the token count in
`ReviveAgent.run_prompt`. -/
theorem token_accounting_amended_witness :
    (Revive.processLine {}
      ⟨"\x7b\"type\":\"result\",\"usage\":\x7b\"total_tokens\":42\x7d\x7d",
        some { type := "result", usageTotal := some 42 }⟩).token_count = 42 := by
  have h := (token_accounting_amended {} {} 15
    ⟨"\x7b\"type\":\"result\",\"usage\":\x7b\"total_tokens\":42\x7d\x7d",
      some { type := "result", usageTotal := some 42 }⟩
    { type := "result", usageTotal := some 42 } []).1 (by decide) rfl
  exact h.1 42 rfl

/-- Counterexample to C6 as stated: in `stream_json_output` an
assistant event with empty content carrying `usage.total_tokens = 7`
does not replace the running token count — the early `continue` skips
the usage tracking and the count stays 0. -/
theorem token_accounting_cex :
    (CleanLog.processLine 15 {}
      ⟨"\x7b\"type\":\"assistant\",\"message\":\x7b\"content\":[]\x7d,\"usage\":\x7b\"total_tokens\":7\x7d\x7d",
        some { type := "assistant", content := [], usageTotal := some 7 }⟩).token_count = 0 ∧
    (0 : Nat) ≠ 7 := by
  constructor <;> decide

/-! ## Claim C10: statistics are updated before the exit-status check -/

/-- Claim C10: in `ReviveAgent.run_prompt` the per-call statistics are
stored, added to the cumulative totals, and the per-call stats message
is streamed to the callback before the process exit status is checked;
an invocation whose process exits non-zero raises the process-failure
error, yet `get_total_stats` already includes the counts of that
failed call, and the stats message was delivered. -/
theorem stats_mutated_before_error (prompt : String) (stats : Revive.AgentStats)
    (lines : List LineInput) (returncode : Int) (stderr : String)
    (hp : pyStrip prompt ≠ []) (hrc : returncode ≠ 0) :
    (Revive.run_prompt prompt stats lines returncode stderr).outcome =
      Except.error ("Cursor CLI command failed: " ++ stderr) ∧
    Revive.get_total_stats (Revive.run_prompt prompt stats lines returncode stderr).stats =
      (stats.total_tool_call_count + (Revive.decodeLines lines).tool_call_count,
       stats.total_token_count + Revive.callTokenCount lines) ∧
    (Revive.statsMsg (Revive.decodeLines lines).tool_call_count (Revive.callTokenCount lines)
        (stats.total_tool_call_count + (Revive.decodeLines lines).tool_call_count)
        (stats.total_token_count + Revive.callTokenCount lines)).toList ∈
      (Revive.run_prompt prompt stats lines returncode stderr).emitted := by
  unfold Revive.run_prompt
  rw [if_neg hp, if_pos hrc]
  refine ⟨rfl, rfl, ?_⟩
  simp [Revive.callTokenCount]

/-- Witness for C10: a failed call (exit code 1) whose stream contained
one started tool call still adds 1 tool call to the cumulative totals
before the error is raised. -/
theorem stats_mutated_before_error_witness :
    (Revive.run_prompt "hi" { total_tool_call_count := 3, total_token_count := 40 }
        [⟨"\x7b\"type\":\"tool_call\",\"subtype\":\"started\",\"tool_call\":\x7b\"readToolCall\":\x7b\"args\":\x7b\"path\":\"f.py\"\x7d\x7d\x7d\x7d",
           some { type := "tool_call", subtype := "started", toolCall := ToolCall.read "f.py" }⟩]
        1 "boom").outcome = Except.error "Cursor CLI command failed: boom" ∧
    Revive.get_total_stats (Revive.run_prompt "hi"
        { total_tool_call_count := 3, total_token_count := 40 }
        [⟨"\x7b\"type\":\"tool_call\",\"subtype\":\"started\",\"tool_call\":\x7b\"readToolCall\":\x7b\"args\":\x7b\"path\":\"f.py\"\x7d\x7d\x7d\x7d",
           some { type := "tool_call", subtype := "started", toolCall := ToolCall.read "f.py" }⟩]
        1 "boom").stats = (4, 40) := by
  have h := stats_mutated_before_error "hi"
    { total_tool_call_count := 3, total_token_count := 40 }
    [⟨"\x7b\"type\":\"tool_call\",\"subtype\":\"started\",\"tool_call\":\x7b\"readToolCall\":\x7b\"args\":\x7b\"path\":\"f.py\"\x7d\x7d\x7d\x7d",
       some { type := "tool_call", subtype := "started", toolCall := ToolCall.read "f.py" }⟩]
    1 "boom" (by decide) (by decide)
  refine ⟨h.1, ?_⟩
  rw [h.2.1]
  decide

/-! ## Claim C2: orchestrator short-circuit -/

/-- Claim C2: for every job, a stage whose post-condition check fails
makes `revive_code_task` set the job status to failed with the error
message naming that stage, keep `current_step` at the label of that
stage,
push the terminal sentinel as the last queue item, return with the
name of the failing stage, and never enter a later stage. -/
theorem orchestrator_short_circuit (tt tk : Nat) (s1 s2 s3 : Except String Bool)
    (s4 : Except String (Bool × Bool)) (e1 e2 e3 e4 : List String) :
    (s1 = Except.ok false →
       Orch.revive_code_task tt tk s1 s2 s3 s4 e1 e2 e3 e4 =
         { status := Orch.JobStatus.failed,
           current_step := "Setting up R_base environment",
           error := some "R_base environment setup failed",
           queue := (some "\n\n=== Setting up R_base environment ===\n" :: e1.map some) ++ [none],
           stagesRun := [1],
           retSuccess := false, retStep := some "setup_r_base" }) ∧
    (s1 = Except.ok true → s2 = Except.ok false →
       (Orch.revive_code_task tt tk s1 s2 s3 s4 e1 e2 e3 e4).status = Orch.JobStatus.failed ∧
       (Orch.revive_code_task tt tk s1 s2 s3 s4 e1 e2 e3 e4).error =
         some "R_old environment setup failed" ∧
       (Orch.revive_code_task tt tk s1 s2 s3 s4 e1 e2 e3 e4).current_step =
         "Setting up R_old environment" ∧
       (Orch.revive_code_task tt tk s1 s2 s3 s4 e1 e2 e3 e4).stagesRun = [1, 2] ∧
       (Orch.revive_code_task tt tk s1 s2 s3 s4 e1 e2 e3 e4).retStep = some "setup_r_old" ∧
       (Orch.revive_code_task tt tk s1 s2 s3 s4 e1 e2 e3 e4).queue.getLast? = some none) ∧
    (s1 = Except.ok true → s2 = Except.ok true → s3 = Except.ok false →
       (Orch.revive_code_task tt tk s1 s2 s3 s4 e1 e2 e3 e4).status = Orch.JobStatus.failed ∧
       (Orch.revive_code_task tt tk s1 s2 s3 s4 e1 e2 e3 e4).error =
         some "Dependencies resolution failed" ∧
       (Orch.revive_code_task tt tk s1 s2 s3 s4 e1 e2 e3 e4).current_step =
         "Resolving dependencies" ∧
       (Orch.revive_code_task tt tk s1 s2 s3 s4 e1 e2 e3 e4).stagesRun = [1, 2, 3] ∧
       (Orch.revive_code_task tt tk s1 s2 s3 s4 e1 e2 e3 e4).retStep =
         some "resolve_dependencies" ∧
       (Orch.revive_code_task tt tk s1 s2 s3 s4 e1 e2 e3 e4).queue.getLast? = some none) ∧
    (s1 = Except.ok true → s2 = Except.ok true → s3 = Except.ok true →
     ∀ b o : Bool, s4 = Except.ok (b, o) → (b = false ∨ o = false) →
       (Orch.revive_code_task tt tk s1 s2 s3 s4 e1 e2 e3 e4).status = Orch.JobStatus.failed ∧
       (Orch.revive_code_task tt tk s1 s2 s3 s4 e1 e2 e3 e4).error =
         some ("Verification failed - Base: " ++ Orch.pyBool b ++ ", Old: " ++ Orch.pyBool o) ∧
       (Orch.revive_code_task tt tk s1 s2 s3 s4 e1 e2 e3 e4).current_step =
         "Final verification" ∧
       (Orch.revive_code_task tt tk s1 s2 s3 s4 e1 e2 e3 e4).stagesRun = [1, 2, 3, 4] ∧
       (Orch.revive_code_task tt tk s1 s2 s3 s4 e1 e2 e3 e4).retStep =
         some "final_verification" ∧
       (Orch.revive_code_task tt tk s1 s2 s3 s4 e1 e2 e3 e4).queue.getLast? = some none) := by
  refine ⟨?_, ?_, ?_, ?_⟩
  · rintro rfl
    rfl
  · rintro rfl rfl
    refine ⟨rfl, rfl, rfl, rfl, rfl, ?_⟩
    exact List.getLast?_concat _
  · rintro rfl rfl rfl
    refine ⟨rfl, rfl, rfl, rfl, rfl, ?_⟩
    exact List.getLast?_concat _
  · rintro rfl rfl rfl b o rfl hbo
    have hcond : ¬ b = true ∨ ¬ o = true := by
      rcases hbo with rfl | rfl
      · left
        simp
      · right
        simp
    simp only [Orch.revive_code_task]
    rw [if_pos hcond]
    refine ⟨rfl, rfl, rfl, rfl, rfl, ?_⟩
    exact List.getLast?_concat _

/-- Witness for C2: when stage 2 of 4 reports post-condition failure,
the job fails with `current_step` naming stage 2, only stages 1 and 2
ran, and the sentinel is the last queue item. -/
theorem orchestrator_short_circuit_witness :
    (Orch.revive_code_task 0 0 (Except.ok true) (Except.ok false) (Except.ok true)
        (Except.ok (true, true)) [] [] [] []).status = Orch.JobStatus.failed ∧
    (Orch.revive_code_task 0 0 (Except.ok true) (Except.ok false) (Except.ok true)
        (Except.ok (true, true)) [] [] [] []).current_step = "Setting up R_old environment" ∧
    (Orch.revive_code_task 0 0 (Except.ok true) (Except.ok false) (Except.ok true)
        (Except.ok (true, true)) [] [] [] []).stagesRun = [1, 2] ∧
    (Orch.revive_code_task 0 0 (Except.ok true) (Except.ok false) (Except.ok true)
        (Except.ok (true, true)) [] [] [] []).queue.getLast? = some none := by
  have h := (orchestrator_short_circuit 0 0 (Except.ok true) (Except.ok false)
    (Except.ok true) (Except.ok (true, true)) [] [] [] []).2.1 rfl rfl
  exact ⟨h.1, h.2.2.1, h.2.2.2.1, h.2.2.2.2.2⟩

/-! ## Claim C3: stream termination -/

/-- A consumer reading a queue whose items before the sentinel are all
text chunks reaches the sentinel with one `q.get` per item and yields
`[DONE]`. -/
theorem consume_reaches_sentinel (status : Orch.JobStatus) (xs rest : List (Option String))
    (hx : ∀ x ∈ xs, x ≠ none) :
    (Orch.consume status (xs.length + 1) (xs ++ none :: rest)).2 = true := by
  induction xs with
  | nil => simp [Orch.consume]
  | cons a as ih =>
    rcases a with _ | t
    · exact absurd rfl (hx none (by simp))
    · have h := ih (fun x hm => hx x (by simp [hm]))
      simpa [Orch.consume] using h

/-- With a terminal job status, a consumer drains any sentinel-free
queue and stops via the status check on the first heartbeat. -/
theorem consume_terminal_drains (status : Orch.JobStatus)
    (hterm : status = Orch.JobStatus.completed ∨ status = Orch.JobStatus.failed)
    (items : List (Option String)) (hx : ∀ x ∈ items, x ≠ none) :
    (Orch.consume status (items.length + 1) items).2 = true := by
  induction items with
  | nil =>
    rcases hterm with rfl | rfl <;> simp [Orch.consume]
  | cons a as ih =>
    rcases a with _ | t
    · exact absurd rfl (hx none (by simp))
    · have h := ih (fun x hm => hx x (by simp [hm]))
      simpa [Orch.consume] using h

/-- Every path of the worker ends the queue with the sentinel, after
text chunks only. -/
theorem revive_task_queue_shape (tt tk : Nat) (s1 s2 s3 : Except String Bool)
    (s4 : Except String (Bool × Bool)) (e1 e2 e3 e4 : List String) :
    ∃ ss : List String, (Orch.revive_code_task tt tk s1 s2 s3 s4 e1 e2 e3 e4).queue =
      ss.map some ++ [none] := by
  unfold Orch.revive_code_task Orch.excFail
  rcases s1 with m | b1
  · exact ⟨"\n\n=== Setting up R_base environment ===\n" :: e1 ++
      [Orch.statsBeforeFailureMsg tt tk], by simp⟩
  cases b1
  · exact ⟨"\n\n=== Setting up R_base environment ===\n" :: e1, by simp⟩
  rcases s2 with m | b2
  · exact ⟨"\n\n=== Setting up R_base environment ===\n" :: e1 ++
      "\n\n=== Setting up R_old environment ===\n" :: e2 ++
      [Orch.statsBeforeFailureMsg tt tk], by simp⟩
  cases b2
  · exact ⟨"\n\n=== Setting up R_base environment ===\n" :: e1 ++
      "\n\n=== Setting up R_old environment ===\n" :: e2, by simp⟩
  rcases s3 with m | b3
  · exact ⟨"\n\n=== Setting up R_base environment ===\n" :: e1 ++
      "\n\n=== Setting up R_old environment ===\n" :: e2 ++
      "\n\n=== Resolving dependencies ===\n" :: e3 ++
      [Orch.statsBeforeFailureMsg tt tk], by simp⟩
  cases b3
  · exact ⟨"\n\n=== Setting up R_base environment ===\n" :: e1 ++
      "\n\n=== Setting up R_old environment ===\n" :: e2 ++
      "\n\n=== Resolving dependencies ===\n" :: e3, by simp⟩
  rcases s4 with m | ⟨b, o⟩
  · exact ⟨"\n\n=== Setting up R_base environment ===\n" :: e1 ++
      "\n\n=== Setting up R_old environment ===\n" :: e2 ++
      "\n\n=== Resolving dependencies ===\n" :: e3 ++
      "\n\n=== Final verification ===\n" :: e4 ++
      [Orch.statsBeforeFailureMsg tt tk], by simp⟩
  cases b <;> cases o
  · exact ⟨"\n\n=== Setting up R_base environment ===\n" :: e1 ++
      "\n\n=== Setting up R_old environment ===\n" :: e2 ++
      "\n\n=== Resolving dependencies ===\n" :: e3 ++
      "\n\n=== Final verification ===\n" :: e4, by simp⟩
  · exact ⟨"\n\n=== Setting up R_base environment ===\n" :: e1 ++
      "\n\n=== Setting up R_old environment ===\n" :: e2 ++
      "\n\n=== Resolving dependencies ===\n" :: e3 ++
      "\n\n=== Final verification ===\n" :: e4, by simp⟩
  · exact ⟨"\n\n=== Setting up R_base environment ===\n" :: e1 ++
      "\n\n=== Setting up R_old environment ===\n" :: e2 ++
      "\n\n=== Resolving dependencies ===\n" :: e3 ++
      "\n\n=== Final verification ===\n" :: e4, by simp⟩
  · exact ⟨"\n\n=== Setting up R_base environment ===\n" :: e1 ++
      "\n\n=== Setting up R_old environment ===\n" :: e2 ++
      "\n\n=== Resolving dependencies ===\n" :: e3 ++
      "\n\n=== Final verification ===\n" :: e4 ++
      [Orch.finalStatsMsg tt tk], by simp⟩

/-- Every path of the worker ends with a terminal job status. -/
theorem revive_task_terminal (tt tk : Nat) (s1 s2 s3 : Except String Bool)
    (s4 : Except String (Bool × Bool)) (e1 e2 e3 e4 : List String) :
    (Orch.revive_code_task tt tk s1 s2 s3 s4 e1 e2 e3 e4).status = Orch.JobStatus.completed ∨
    (Orch.revive_code_task tt tk s1 s2 s3 s4 e1 e2 e3 e4).status = Orch.JobStatus.failed := by
  unfold Orch.revive_code_task Orch.excFail
  rcases s1 with m | b1
  · right; rfl
  cases b1
  · right; rfl
  rcases s2 with m | b2
  · right; rfl
  cases b2
  · right; rfl
  rcases s3 with m | b3
  · right; rfl
  cases b3
  · right; rfl
  rcases s4 with m | ⟨b, o⟩
  · right; rfl
  cases b <;> cases o
  · right
    simp
  · right
    simp
  · right
    simp
  · left
    simp

/-- Claim C3: for every worker run — stage failures, stage exceptions
and success alike — the job ends in a terminal status, the terminal
sentinel is the last item pushed to the streaming queue, a consumer
reading the queue observes `[DONE]` within one `q.get` per queued item
(no heartbeat needed), and even a consumer that misses the sentinel
terminates via the status check after a single heartbeat interval. -/
theorem stream_termination (tt tk : Nat) (s1 s2 s3 : Except String Bool)
    (s4 : Except String (Bool × Bool)) (e1 e2 e3 e4 : List String) :
    ((Orch.revive_code_task tt tk s1 s2 s3 s4 e1 e2 e3 e4).status = Orch.JobStatus.completed ∨
     (Orch.revive_code_task tt tk s1 s2 s3 s4 e1 e2 e3 e4).status = Orch.JobStatus.failed) ∧
    (∃ ss : List String,
       (Orch.revive_code_task tt tk s1 s2 s3 s4 e1 e2 e3 e4).queue = ss.map some ++ [none]) ∧
    (Orch.consume (Orch.revive_code_task tt tk s1 s2 s3 s4 e1 e2 e3 e4).status
        (Orch.revive_code_task tt tk s1 s2 s3 s4 e1 e2 e3 e4).queue.length
        (Orch.revive_code_task tt tk s1 s2 s3 s4 e1 e2 e3 e4).queue).2 = true ∧
    (∀ items : List (Option String), (∀ x ∈ items, x ≠ none) →
       (Orch.consume (Orch.revive_code_task tt tk s1 s2 s3 s4 e1 e2 e3 e4).status
         (items.length + 1) items).2 = true) := by
  obtain ⟨ss, hss⟩ := revive_task_queue_shape tt tk s1 s2 s3 s4 e1 e2 e3 e4
  have hterm := revive_task_terminal tt tk s1 s2 s3 s4 e1 e2 e3 e4
  refine ⟨hterm, ⟨ss, hss⟩, ?_, ?_⟩
  · rw [hss]
    have hlen : (ss.map some ++ [none] : List (Option String)).length =
        (ss.map some).length + 1 := by simp
    rw [hlen]
    exact consume_reaches_sentinel _ (ss.map some) [] (by simp)
  · intro items hx
    exact consume_terminal_drains _ hterm items hx

/-- Witness for C3: a fully successful run ends with the sentinel
observed by the consumer, and a consumer that missed the sentinel still
terminates on the first heartbeat via the status check. -/
theorem stream_termination_witness :
    (Orch.consume (Orch.revive_code_task 1 2 (Except.ok true) (Except.ok true) (Except.ok true)
          (Except.ok (true, true)) [] [] [] []).status
        (Orch.revive_code_task 1 2 (Except.ok true) (Except.ok true) (Except.ok true)
          (Except.ok (true, true)) [] [] [] []).queue.length
        (Orch.revive_code_task 1 2 (Except.ok true) (Except.ok true) (Except.ok true)
          (Except.ok (true, true)) [] [] [] []).queue).2 = true ∧
    (Orch.consume (Orch.revive_code_task 1 2 (Except.ok true) (Except.ok true) (Except.ok true)
          (Except.ok (true, true)) [] [] [] []).status 2 [some "chunk"]).2 = true := by
  have h := stream_termination 1 2 (Except.ok true) (Except.ok true) (Except.ok true)
    (Except.ok (true, true)) [] [] [] []
  exact ⟨h.2.2.1, h.2.2.2 [some "chunk"] (by simp)⟩

end Rebibe
